/-
Verification of the EmailSlackProcessor pipeline components.

Shallow embedding of `python_components/pipeline/{queue,scheduler,errors,orchestrator}.py`.
Time is modelled as a natural number of seconds since an epoch that falls on a
Monday at 00:00:00 (so `weekday = day % 7` matches Python's `datetime.weekday`
convention with Monday = 0).  `datetime.now()` becomes an explicit `now : Nat`
parameter.  Python exceptions become `Except`/`Option` values.
-/
import Mathlib

namespace ICAP

/-! ## Queue: `Message` (queue.py lines 18-69) -/

/-- Embedding of the `Message` dataclass (queue.py).  `data`/`type`/`id` are
collapsed to a numeric `id` since the claims never inspect them; `created_at`
and `scheduled_time` are epoch seconds. -/
structure Message where
  id : Nat
  priority : Nat := 2
  created_at : Nat := 0
  processed : Bool := false
  retry_count : Nat := 0
  max_retries : Nat := 3
  scheduled_time : Option Nat := none
  error : Option String := none
  deriving Repr, DecidableEq

/-- `Message.__lt__` (queue.py lines 55-69), with `datetime.now()` passed in as
`now`.  Note the source compares a lone `scheduled_time` against the current
clock, not against the other message's `created_at`. -/
def msgLT (now : Nat) (a b : Message) : Bool :=
  if a.priority ≠ b.priority then
    decide (a.priority < b.priority)
  else
    match a.scheduled_time, b.scheduled_time with
    | some sa, some sb => decide (sa < sb)
    | some sa, none => decide (sa < now)
    | none, some sb => decide (now < sb)
    | none, none => decide (a.created_at < b.created_at)

/-- Which of two pending messages `heapq` pops first when `m1` was inserted
before `m2`: after `put m1; put m2` the sift-down places `m2` at the root
exactly when `m2 < m1`, and `get` returns the root. -/
def dequeueFirst (now : Nat) (m1 m2 : Message) : Message :=
  if msgLT now m2 m1 then m2 else m1

/-- Modelled from the spec (refinement side of C1): a message's effective time
is `scheduled_time` if set and otherwise `created_at`. -/
def effTime (m : Message) : Nat :=
  m.scheduled_time.getD m.created_at

/-- Modelled from the spec (refinement side of C1): the spec's ordering key
`(priority asc, effective_time asc)`. -/
def specLT (a b : Message) : Bool :=
  decide (a.priority < b.priority) ||
    (decide (a.priority = b.priority) && decide (effTime a < effTime b))

/-- Modelled from the spec (refinement side of C1): dequeue order under the
spec's key, ties broken by insertion order (`m1` first). -/
def specFirst (m1 m2 : Message) : Message :=
  if specLT m2 m1 then m2 else m1

/-! ## Queue: one iteration of `MessageQueue._process_loop` (queue.py 242-320)

One iteration of the worker loop for a single dequeued message.  The single
registered handler's behaviour is `outcome : Option String` (`none` = the
handler returns, `some e` = the handler raises an exception whose text is `e`);
`hasHandler = false` models an empty `self.handlers.get(message.type, [])`.
Statistics keep only the four counters the claims mention. -/

/-- The queue's statistics counters (queue.py lines 107-113, minus
`start_time`). -/
structure Stats where
  enqueued : Nat := 0
  processed : Nat := 0
  retried : Nat := 0
  failed : Nat := 0
  deriving Repr, DecidableEq

/-- Python `self.processed[-max_messages:]` trim (queue.py lines 316-317):
applied only when the length exceeds `maxMessages`, keeping the newest
entries. -/
def trimHistory (maxMessages : Nat) (h : List Message) : List Message :=
  if maxMessages < h.length then h.drop (h.length - maxMessages) else h

/-- Result of one loop iteration on a dequeued message. -/
inductive IterResult where
  /-- Line 263-266: scheduled in the future, reinserted, no handler ran. -/
  | notDue (m : Message)
  /-- Lines 271-276: no handlers registered; no handler ran. -/
  | noHandlers (m : Message) (s : Stats) (h : List Message)
  /-- Handler(s) ran; `requeued = true` means the retry branch put the
  message back (lines 294-303), otherwise it reached the history. -/
  | handled (requeued : Bool) (m : Message) (s : Stats) (h : List Message)
  deriving Repr, DecidableEq

/-- Whether the iteration invoked a handler on the message. -/
def IterResult.handlerInvoked : IterResult → Bool
  | .handled _ _ _ _ => true
  | _ => false

/-- One iteration of `_process_loop` (queue.py lines 262-320) on message `m`
dequeued at time `now`, with history bound `maxM` (`self.max_messages`). -/
def processIter (maxM now : Nat) (hasHandler : Bool) (outcome : Option String)
    (m : Message) (s : Stats) (h : List Message) : IterResult :=
  if (match m.scheduled_time with
      | some t => decide (now < t)
      | none => false) then
    .notDue m
  else if ¬ hasHandler then
    .noHandlers { m with error := some "No handlers registered" }
      { s with failed := s.failed + 1 }
      (h ++ [{ m with error := some "No handlers registered" }])
  else
    match outcome with
    | none =>
      -- success: mark processed, bump stat, append to history once, trim
      let m' := { m with processed := true }
      .handled false m' { s with processed := s.processed + 1 }
        (trimHistory maxM (h ++ [m']))
    | some e =>
      let m1 := { m with error := some e }
      if m1.retry_count < m1.max_retries then
        -- retry branch: bump retry_count and retried stat, reschedule with
        -- exponential backoff, put back on the queue (no history append)
        .handled true
          { m1 with
            retry_count := m1.retry_count + 1,
            scheduled_time := some (now + 2 ^ (m1.retry_count + 1)) }
          { s with retried := s.retried + 1 } h
      else
        -- max retries reached: mark processed, bump failed, append to the
        -- history in this branch AND again in the generic `if processed`
        -- block (lines 309 and 313), then trim
        let m2 := { m1 with processed := true }
        .handled false m2 { s with failed := s.failed + 1 }
          (trimHistory maxM (h ++ [m2] ++ [m2]))

/-- After a retry requeue the message carries a future `scheduled_time`; the
loop spins (line 263-266) until the clock reaches it.  The driver advances the
clock directly to that instant, which is the first moment the guard lets the
message through. -/
def nextNow (now : Nat) (m : Message) : Nat :=
  match m.scheduled_time with
  | some t => max now t
  | none => now

/-- Fuel-bounded run of `_process_loop` on a single message with one
registered handler whose behaviour on the `i`-th attempt (0-based) is `f i`.
Returns `(attempts, message, stats, history)`.  `attempts` counts handler
invocations. -/
def runLoop (maxM : Nat) (f : Nat → Option String) :
    Nat → Nat → Nat → Message → Stats → List Message →
    Nat × Message × Stats × List Message
  | 0, att, _now, m, s, h => (att, m, s, h)
  | fuel + 1, att, now, m, s, h =>
    match processIter maxM now true (f att) m s h with
    | .notDue m' => runLoop maxM f fuel att (nextNow now m') m' s h
    | .noHandlers m' s' h' => (att, m', s', h')
    | .handled true m' s' h' => runLoop maxM f fuel (att + 1) (nextNow now m') m' s' h'
    | .handled false m' s' h' => (att + 1, m', s', h')

/-! ## Claim C1: dequeue order of two pending messages -/

/-- The code's comparator agrees with the spec's `(priority, effective_time)`
key whenever the two messages either both carry a `scheduled_time` or both do
not. -/
lemma msgLT_eq_specLT (now : Nat) (a b : Message)
    (hs : a.scheduled_time.isSome = b.scheduled_time.isSome) :
    msgLT now a b = specLT a b := by
  rcases ha : a.scheduled_time with _ | sa <;> rcases hb : b.scheduled_time with _ | sb
  · by_cases hp : a.priority = b.priority <;>
      simp [msgLT, specLT, effTime, ha, hb, hp, Nat.lt_irrefl]
  · simp [ha, hb] at hs
  · simp [ha, hb] at hs
  · by_cases hp : a.priority = b.priority <;>
      simp [msgLT, specLT, effTime, ha, hb, hp, Nat.lt_irrefl]

/-- Claim C1 (counterexample).  Take `now = 200`, message `mA` with priority 2,
`created_at = 50`, `scheduled_time = 100` (already due), and message `mB` with
priority 2, `created_at = 10`, no `scheduled_time`, enqueued after `mA`.  The
spec's key orders `mB` first (effective time 10 < 100), but the code dequeues
`mA` first, because `Message.__lt__` compares the lone `scheduled_time`
against the clock instead of against `mB`'s `created_at`. -/
theorem claim_C1_counterexample :
    specFirst { id := 1, created_at := 50, scheduled_time := some 100 }
        { id := 2, created_at := 10 } =
      { id := 2, created_at := 10 } ∧
    dequeueFirst 200 { id := 1, created_at := 50, scheduled_time := some 100 }
        { id := 2, created_at := 10 } =
      { id := 1, created_at := 50, scheduled_time := some 100 } := by
  constructor <;> rfl

/-- Claim C1 (amended).  When the two pending messages either both have a
`scheduled_time` or both lack one, the queue dequeues them by the spec's key
`(priority asc, effective_time asc)` with ties broken by insertion order; when
exactly one has a `scheduled_time`, the comparator instead checks that
`scheduled_time` against the current clock.  Unconditionally, for priorities
`p1 < p2`, the message with priority `p1` is dequeued first whichever order
they were enqueued in. -/
theorem claim_C1_queue_order (now : Nat) (m1 m2 : Message) :
    (m1.scheduled_time.isSome = m2.scheduled_time.isSome →
      dequeueFirst now m1 m2 = specFirst m1 m2) ∧
    (m1.priority < m2.priority →
      dequeueFirst now m1 m2 = m1 ∧ dequeueFirst now m2 m1 = m1) := by
  constructor
  · intro hs
    unfold dequeueFirst specFirst
    rw [msgLT_eq_specLT now m2 m1 hs.symm]
  · intro hp
    have h12 : msgLT now m1 m2 = true := by
      unfold msgLT
      have : m1.priority ≠ m2.priority := Nat.ne_of_lt hp
      simp [this, hp]
    have h21 : msgLT now m2 m1 = false := by
      unfold msgLT
      have hne : m2.priority ≠ m1.priority := (Nat.ne_of_lt hp).symm
      simp [hne]
      omega
    constructor <;> simp [dequeueFirst, h12, h21]

/-- Witness for `claim_C1_queue_order` at concrete messages. -/
theorem claim_C1_witness :
    dequeueFirst 7 { id := 1, created_at := 5 } { id := 2, created_at := 3 } =
        specFirst { id := 1, created_at := 5 } { id := 2, created_at := 3 } ∧
      dequeueFirst 7 { id := 1, created_at := 5, priority := 1 }
          { id := 2, created_at := 3 } =
        { id := 1, created_at := 5, priority := 1 } := by
  refine ⟨(claim_C1_queue_order 7 { id := 1, created_at := 5 }
    { id := 2, created_at := 3 }).1 rfl, ?_⟩
  exact ((claim_C1_queue_order 7 { id := 1, created_at := 5, priority := 1 }
    { id := 2, created_at := 3 }).2 (by decide)).1

/-! ## Claim C2: no delivery before `scheduled_time` -/

/-- Claim C2.  A message whose `scheduled_time` is set is never handed to a
handler before that instant: if the loop iteration invoked a handler then
`scheduled_time ≤ now`, and an iteration that dequeues a not-yet-due message
reinserts it (`.notDue`) without dispatching. -/
theorem claim_C2_no_early_delivery (maxM now : Nat) (hasH : Bool)
    (outcome : Option String) (m : Message) (s : Stats) (h : List Message)
    (t : Nat) (hst : m.scheduled_time = some t) :
    ((processIter maxM now hasH outcome m s h).handlerInvoked = true → t ≤ now) ∧
    (now < t → processIter maxM now hasH outcome m s h = .notDue m) := by
  constructor
  · intro hinv
    by_contra hlt
    push_neg at hlt
    simp [processIter, hst, hlt] at hinv
    simp [IterResult.handlerInvoked] at hinv
  · intro hlt
    simp [processIter, hst, hlt]

/-- Witness for `claim_C2_no_early_delivery`: a message scheduled for `t = 10`
dequeued at `now = 4` is reinserted, not dispatched. -/
theorem claim_C2_witness :
    processIter 1000 4 true none { id := 1, scheduled_time := some 10 } {} [] =
      .notDue { id := 1, scheduled_time := some 10 } :=
  (claim_C2_no_early_delivery 1000 4 true none
    { id := 1, scheduled_time := some 10 } {} [] 10 rfl).2 (by decide)

/-! ## Claim C10: exhausted-retries messages enter the history twice -/

/-- Claim C10.  In the iteration where a failing message has exhausted its
retries (`retry_count ≥ max_retries`), the loop appends it to the processed
history in the max-retries branch (line 309) and again in the generic
processed-message branch (line 313), so it occupies two history entries;
a successfully handled message is appended exactly once. -/
theorem claim_C10_double_append (maxM now : Nat) (m : Message) (s : Stats)
    (h : List Message) (e : String)
    (hdue : ∀ t, m.scheduled_time = some t → t ≤ now)
    (hmax : m.max_retries ≤ m.retry_count) :
    processIter maxM now true (some e) m s h =
      .handled false { m with error := some e, processed := true }
        { s with failed := s.failed + 1 }
        (trimHistory maxM (h ++
          [{ m with error := some e, processed := true },
           { m with error := some e, processed := true }])) ∧
    processIter maxM now true none m s h =
      .handled false { m with processed := true }
        { s with processed := s.processed + 1 }
        (trimHistory maxM (h ++ [{ m with processed := true }])) := by
  have hguard : (match m.scheduled_time with
      | some t => decide (now < t)
      | none => false) = false := by
    rcases hst : m.scheduled_time with _ | t
    · rfl
    · simp [decide_eq_false_iff_not]
      exact hdue t hst
  constructor
  · simp only [processIter, hguard]
    simp [Nat.not_lt.mpr hmax]
  · simp only [processIter, hguard]
    simp

/-- Witness for `claim_C10_double_append`: an always-failing message with
`retry_count = max_retries = 3` lands in the history twice; a succeeding one
once. -/
theorem claim_C10_witness :
    processIter 1000 0 true (some "boom")
        { id := 1, retry_count := 3 } {} [] =
      .handled false { id := 1, retry_count := 3, error := some "boom", processed := true }
        { failed := 1 }
        [{ id := 1, retry_count := 3, error := some "boom", processed := true },
         { id := 1, retry_count := 3, error := some "boom", processed := true }] ∧
    processIter 1000 0 true none { id := 1, retry_count := 3 } {} [] =
      .handled false { id := 1, retry_count := 3, processed := true }
        { processed := 1 }
        [{ id := 1, retry_count := 3, processed := true }] := by
  have := claim_C10_double_append 1000 0 { id := 1, retry_count := 3 } {} [] "boom"
    (by intro t ht; simp at ht) (by decide)
  simpa [trimHistory] using this

/-! ## Claims C3 and C4: retry bookkeeping of the worker loop -/

/-- The future-schedule guard of the loop is inactive when the message is due. -/
lemma guard_false {m : Message} {now : Nat}
    (hdue : ∀ t, m.scheduled_time = some t → t ≤ now) :
    (match m.scheduled_time with
      | some t => decide (now < t)
      | none => false) = false := by
  rcases hst : m.scheduled_time with _ | t
  · rfl
  · simp [decide_eq_false_iff_not]
    exact hdue t hst

/-- One due iteration where the handler succeeds. -/
lemma processIter_success (maxM now : Nat) (m : Message) (s : Stats)
    (h : List Message) (hdue : ∀ t, m.scheduled_time = some t → t ≤ now) :
    processIter maxM now true none m s h =
      .handled false { m with processed := true }
        { s with processed := s.processed + 1 }
        (trimHistory maxM (h ++ [{ m with processed := true }])) := by
  simp only [processIter, guard_false hdue]
  simp

/-- One due iteration where the handler raises and a retry remains. -/
lemma processIter_retry (maxM now : Nat) (m : Message) (s : Stats)
    (h : List Message) (e : String)
    (hdue : ∀ t, m.scheduled_time = some t → t ≤ now)
    (hrc : m.retry_count < m.max_retries) :
    processIter maxM now true (some e) m s h =
      .handled true
        { m with
          error := some e,
          retry_count := m.retry_count + 1,
          scheduled_time := some (now + 2 ^ (m.retry_count + 1)) }
        { s with retried := s.retried + 1 } h := by
  simp only [processIter, guard_false hdue]
  simp [hrc]

/-- One due iteration where the handler raises with retries exhausted. -/
lemma processIter_exhausted (maxM now : Nat) (m : Message) (s : Stats)
    (h : List Message) (e : String)
    (hdue : ∀ t, m.scheduled_time = some t → t ≤ now)
    (hrc : ¬ m.retry_count < m.max_retries) :
    processIter maxM now true (some e) m s h =
      .handled false { m with error := some e, processed := true }
        { s with failed := s.failed + 1 }
        (trimHistory maxM (h ++
          [{ m with error := some e, processed := true },
           { m with error := some e, processed := true }])) := by
  simp only [processIter, guard_false hdue]
  simp [hrc]

/-- Final shape of a message that left the loop after `d` further failures. -/
def finishMsg (m : Message) (d : Nat) (e : Option String) (st : Option Nat) :
    Message :=
  { m with
    processed := true,
    retry_count := m.retry_count + d,
    scheduled_time := st,
    error := e }

/-- A run whose handler fails on attempts `att, …, att + d - 1` and returns on
attempt `att + d`, with `d` retries left within the budget, ends after
`d + 1` handler invocations with the message processed, `retried` bumped `d`
times, `processed` bumped once, the last failure text kept in `error`, and a
single history append. -/
lemma runLoop_fail_then_succeed (maxM : Nat) (f : Nat → Option String)
    (err : Nat → String) :
    ∀ (d fuel att now : Nat) (m : Message) (s : Stats) (h : List Message),
      d < fuel →
      m.retry_count + d ≤ m.max_retries →
      (∀ t, m.scheduled_time = some t → t ≤ now) →
      (∀ i, i < d → f (att + i) = some (err (att + i))) →
      f (att + d) = none →
      ∃ st,
        runLoop maxM f fuel att now m s h =
          (att + d + 1,
           finishMsg m d (if d = 0 then m.error else some (err (att + d - 1))) st,
           { s with processed := s.processed + 1, retried := s.retried + d },
           trimHistory maxM (h ++
             [finishMsg m d (if d = 0 then m.error else some (err (att + d - 1))) st])) := by
  intro d
  induction d with
  | zero =>
    intro fuel att now m s h hfuel _hrc hdue _hfail hsucc
    obtain ⟨fuel, rfl⟩ : ∃ k, fuel = k + 1 := ⟨fuel - 1, by omega⟩
    refine ⟨m.scheduled_time, ?_⟩
    simp only [Nat.add_zero] at hsucc
    simp only [runLoop, hsucc, processIter_success maxM now m s h hdue]
    simp [finishMsg]
  | succ d ih =>
    intro fuel att now m s h hfuel hrc hdue hfail hsucc
    obtain ⟨fuel, rfl⟩ : ∃ k, fuel = k + 1 := ⟨fuel - 1, by omega⟩
    have hf0 : f att = some (err att) := by
      have := hfail 0 (Nat.succ_pos d)
      simpa using this
    have hlt : m.retry_count < m.max_retries := by omega
    set m' : Message :=
      { m with
        error := some (err att),
        retry_count := m.retry_count + 1,
        scheduled_time := some (now + 2 ^ (m.retry_count + 1)) } with hm'
    have hnext : nextNow now m' = now + 2 ^ (m.retry_count + 1) := by
      simp [nextNow, hm']
    obtain ⟨st, hrec⟩ := ih fuel (att + 1) (now + 2 ^ (m.retry_count + 1)) m'
      { s with retried := s.retried + 1 } h
      (by omega)
      (by simp [hm']; omega)
      (by intro t ht; simp [hm'] at ht; omega)
      (by intro i hi
          have h2 := hfail (i + 1) (by omega)
          have h3 : att + 1 + i = att + (i + 1) := by omega
          rw [h3]; exact h2)
      (by have h3 : att + 1 + d = att + (d + 1) := by omega
          rw [h3]; exact hsucc)
    refine ⟨st, ?_⟩
    simp only [runLoop, hf0, processIter_retry maxM now m s h (err att) hdue hlt]
    rw [hnext, hrec]
    have hmsg :
        finishMsg m' d
            (if d = 0 then m'.error else some (err (att + 1 + d - 1))) st =
          finishMsg m (d + 1) (some (err (att + (d + 1) - 1))) st := by
      rcases d with _ | d'
      · simp [finishMsg, hm']
      · simp [finishMsg, hm']
        refine ⟨by omega, ?_⟩
        congr 1
        omega
    rw [hmsg]
    simp only [Prod.mk.injEq, Stats.mk.injEq]
    simp
    all_goals omega

/-- A run whose handler fails on every attempt, entered with `d` retries left
in the budget (`max_retries = retry_count + d`), ends after `d + 1` further
handler invocations with `retried` bumped `d` times, `failed` bumped once, the
message marked processed with the last failure text, and two history
appends. -/
lemma runLoop_all_fail (maxM : Nat) (f : Nat → Option String)
    (err : Nat → String) :
    ∀ (d fuel att now : Nat) (m : Message) (s : Stats) (h : List Message),
      d < fuel →
      m.max_retries = m.retry_count + d →
      (∀ t, m.scheduled_time = some t → t ≤ now) →
      (∀ i, f i = some (err i)) →
      ∃ st,
        runLoop maxM f fuel att now m s h =
          (att + d + 1,
           finishMsg m d (some (err (att + d))) st,
           { s with retried := s.retried + d, failed := s.failed + 1 },
           trimHistory maxM (h ++
             [finishMsg m d (some (err (att + d))) st,
              finishMsg m d (some (err (att + d))) st])) := by
  intro d
  induction d with
  | zero =>
    intro fuel att now m s h hfuel hrc hdue hfail
    obtain ⟨fuel, rfl⟩ : ∃ k, fuel = k + 1 := ⟨fuel - 1, by omega⟩
    refine ⟨m.scheduled_time, ?_⟩
    have hex : ¬ m.retry_count < m.max_retries := by omega
    simp only [runLoop, hfail att,
      processIter_exhausted maxM now m s h (err att) hdue hex]
    simp [finishMsg]
  | succ d ih =>
    intro fuel att now m s h hfuel hrc hdue hfail
    obtain ⟨fuel, rfl⟩ : ∃ k, fuel = k + 1 := ⟨fuel - 1, by omega⟩
    have hlt : m.retry_count < m.max_retries := by omega
    set m' : Message :=
      { m with
        error := some (err att),
        retry_count := m.retry_count + 1,
        scheduled_time := some (now + 2 ^ (m.retry_count + 1)) } with hm'
    have hnext : nextNow now m' = now + 2 ^ (m.retry_count + 1) := by
      simp [nextNow, hm']
    obtain ⟨st, hrec⟩ := ih fuel (att + 1) (now + 2 ^ (m.retry_count + 1)) m'
      { s with retried := s.retried + 1 } h
      (by omega)
      (by simp [hm']; omega)
      (by intro t ht; simp [hm'] at ht; omega)
      hfail
    refine ⟨st, ?_⟩
    simp only [runLoop, hfail att,
      processIter_retry maxM now m s h (err att) hdue hlt]
    rw [hnext, hrec]
    have hmsg :
        finishMsg m' d (some (err (att + 1 + d))) st =
          finishMsg m (d + 1) (some (err (att + (d + 1)))) st := by
      simp [finishMsg, hm']
      constructor
      · omega
      · congr 1
        omega
    rw [hmsg]
    simp only [Prod.mk.injEq, Stats.mk.injEq]
    simp
    all_goals omega

/-- Claim C3 (amended).  A message whose single handler raises on each of its
first `k` attempts (`k < max_retries`) and returns on attempt `k + 1` is
retried exactly `k` times (`retry_count = k`, the `retried` stat grows by `k`,
`k + 1` handler invocations in total), ends processed with `processed = true`
in the history exactly once — but its `error` field keeps the text of the last
failure (`none` only when `k = 0`), because the loop never clears `error`
after a late success. -/
theorem claim_C3_retry_then_success (k mr idv c maxM now : Nat)
    (err : Nat → String) (hk : k < mr) :
    ∃ st,
      runLoop maxM (fun i => if i < k then some (err i) else none) (k + 1) 0 now
        { id := idv, created_at := c, max_retries := mr } {} [] =
      (k + 1,
       finishMsg { id := idv, created_at := c, max_retries := mr } k
         (if k = 0 then none else some (err (k - 1))) st,
       { processed := 1, retried := k },
       trimHistory maxM
         [finishMsg { id := idv, created_at := c, max_retries := mr } k
           (if k = 0 then none else some (err (k - 1))) st]) := by
  obtain ⟨st, hst⟩ := runLoop_fail_then_succeed maxM
    (fun i => if i < k then some (err i) else none) err k (k + 1) 0 now
    { id := idv, created_at := c, max_retries := mr } {} []
    (by omega) (by simp; omega) (by intro t ht; simp at ht)
    (by intro i hi; simp [hi]) (by simp)
  refine ⟨st, ?_⟩
  simpa using hst

/-- Witness for `claim_C3_retry_then_success` with `k = 1`, `max_retries = 3`. -/
theorem claim_C3_witness :
    ∃ st,
      runLoop 1000 (fun i => if i < 1 then some "w" else none) 2 0 0
        { id := 7, created_at := 5, max_retries := 3 } {} [] =
      (2,
       finishMsg { id := 7, created_at := 5, max_retries := 3 } 1
         (if 1 = 0 then none else some "w") st,
       { processed := 1, retried := 1 },
       trimHistory 1000
         [finishMsg { id := 7, created_at := 5, max_retries := 3 } 1
           (if 1 = 0 then none else some "w") st]) :=
  claim_C3_retry_then_success 1 3 7 5 1000 0 (fun _ => "w") (by decide)

/-- Claim C3 (counterexample to the claim as stated).  With `k = 1` failure
("boom") followed by a success, the message ends processed but its `error`
field is `some "boom"`, not `nil` as the claim asserts: the success path never
resets `error`. -/
theorem claim_C3_counterexample :
    (runLoop 1000 (fun i => if i < 1 then some "boom" else none) 2 0 0
        { id := 1, max_retries := 3 } {} []).2.1.processed = true ∧
    (runLoop 1000 (fun i => if i < 1 then some "boom" else none) 2 0 0
        { id := 1, max_retries := 3 } {} []).2.1.error = some "boom" := by
  constructor <;> rfl

/-- Claim C4 (amended).  A message whose handler raises on every invocation is
attempted `max_retries + 1` times in total (the initial attempt plus
`max_retries` retries, not `max_retries` attempts), the `failed` stat grows by
exactly 1, the `retried` stat by `max_retries`, and the message reaches the
bounded history marked `processed = true` with `error` holding the last
failure text (appended twice, see C10), the history being trimmed to
`max_messages` newest entries. -/
theorem claim_C4_always_fails (mr idv c maxM now : Nat) (err : Nat → String) :
    ∃ st,
      runLoop maxM (fun i => some (err i)) (mr + 1) 0 now
        { id := idv, created_at := c, max_retries := mr } {} [] =
      (mr + 1,
       finishMsg { id := idv, created_at := c, max_retries := mr } mr
         (some (err mr)) st,
       { retried := mr, failed := 1 },
       trimHistory maxM
         [finishMsg { id := idv, created_at := c, max_retries := mr } mr
           (some (err mr)) st,
          finishMsg { id := idv, created_at := c, max_retries := mr } mr
           (some (err mr)) st]) := by
  obtain ⟨st, hst⟩ := runLoop_all_fail maxM (fun i => some (err i)) err mr
    (mr + 1) 0 now { id := idv, created_at := c, max_retries := mr } {} []
    (by omega) (by simp) (by intro t ht; simp at ht) (by intro _; simp)
  refine ⟨st, ?_⟩
  simpa using hst

/-- Witness for `claim_C4_always_fails` with `max_retries = 3`. -/
theorem claim_C4_witness :
    ∃ st,
      runLoop 1000 (fun _ => some "x") 4 0 0
        { id := 9, created_at := 2, max_retries := 3 } {} [] =
      (4,
       finishMsg { id := 9, created_at := 2, max_retries := 3 } 3 (some "x") st,
       { retried := 3, failed := 1 },
       trimHistory 1000
         [finishMsg { id := 9, created_at := 2, max_retries := 3 } 3 (some "x") st,
          finishMsg { id := 9, created_at := 2, max_retries := 3 } 3 (some "x") st]) :=
  claim_C4_always_fails 3 9 2 1000 0 (fun _ => "x")

/-- Claim C4 (counterexample to the claim as stated).  With
`max_retries = 3` and an always-raising handler the loop invokes the handler
4 times, not 3: the attempt counter of the run is `4`. -/
theorem claim_C4_counterexample :
    (runLoop 1000 (fun _ => some "boom") 5 0 0
        { id := 1, max_retries := 3 } {} []).1 = 4 ∧
    ({ id := 1, max_retries := 3 } : Message).max_retries = 3 := by
  constructor <;> rfl

/-! ## Errors: exception hierarchy and `with_retry` (errors.py lines 16-139) -/

/-- The exception values that can flow through `with_retry`.  `temporary`,
`permanent`, `resourceNotFound`, `configuration` and `api` are the
`PipelineError` subclasses of errors.py; `generic` is any other Python
exception; `attributeError` models the `AttributeError` raised by evaluating
`time.random()` (the `time` module has no `random` attribute). -/
inductive PyExc where
  | pipeline (msg : String)
  | temporary (msg : String)
  | permanent (msg : String)
  | resourceNotFound (msg : String)
  | configuration (msg : String)
  | api (msg : String) (status : Option Nat) (service : Option String)
  | generic (msg : String)
  | attributeError (msg : String)
  deriving Repr, DecidableEq

/-- The message text of an exception (`str(e)`). -/
def PyExc.text : PyExc → String
  | .pipeline m | .temporary m | .permanent m | .resourceNotFound m
  | .configuration m | .api m _ _ | .generic m | .attributeError m => m

/-- `isinstance(e, PipelineError)` (errors.py lines 16-46). -/
def PyExc.isPipelineError : PyExc → Bool
  | .pipeline _ | .temporary _ | .permanent _ | .resourceNotFound _
  | .configuration _ | .api _ _ _ => true
  | .generic _ | .attributeError _ => false

/-- `APIError.is_temporary` (errors.py lines 48-59): a falsy `status_code`
(absent or 0) falls through to the default `True`; 4xx other than 429 is
permanent; everything else temporary. -/
def apiIsTemporary : Option Nat → Bool
  | none => true
  | some c =>
    if c = 0 then true
    else if 400 ≤ c ∧ c < 500 ∧ c ≠ 429 then false
    else true

/-- The default retry classification of `with_retry` (errors.py lines
103-108): `isinstance(e, TemporaryError)`, or `hasattr(e, "should_retry")`
(only `APIError` defines it) and `e.should_retry()`. -/
def shouldRetryDefault : PyExc → Bool
  | .temporary _ => true
  | .api _ status _ => apiIsTemporary status
  | _ => false

/-- The wrap-and-raise path of `with_retry` (errors.py lines 111-121): a
`PipelineError` is re-raised unchanged; any other exception is wrapped with a
"Failed after N attempts" message.  (The source's `APIError` wrap on line 119
requires both `status_code` and `service` attributes; in this codebase only
`APIError` itself carries them and it is a `PipelineError`, re-raised on line
114 before that check, so for the exception universe modelled here the wrap is
always a plain `PipelineError`.) -/
def raiseWrapped (attempt : Nat) (e : PyExc) : PyExc :=
  if e.isPipelineError then e
  else
    PyExc.pipeline
      ("Failed after " ++ toString attempt ++ " attempts: " ++ e.text)

/-- Embedding of the `with_retry` wrapper (errors.py lines 65-139) around a
call whose behaviour on attempt `i` (1-based) is `f i`.  The code's retry
branch first computes `jitter * delay * (2 * (0.5 - time.random()))` (line
124); `time.random` does not exist, so that expression raises
`AttributeError` out of the wrapper before `time.sleep` ever runs — the
`while True` loop can therefore never reach a second attempt, and no
recursion is needed to model it faithfully. -/
def withRetry (maxAttempts : Nat) (f : Nat → Except PyExc α) : Except PyExc α :=
  match f 1 with
  | .ok v => .ok v
  | .error e =>
    if ¬ shouldRetryDefault e ∨ maxAttempts ≤ 1 then
      .error (raiseWrapped 1 e)
    else
      .error (.attributeError "module 'time' has no attribute 'random'")

/-- Claim C8 (code bug).  A function that raises `TemporaryError "boom"` on
its first call and would return 42 afterwards, wrapped with the default
`max_attempts = 3`: the error is classified retryable and a retry budget
remains, yet `with_retry` raises `AttributeError` from the nonexistent
`time.random()` in the jitter computation instead of backing off and
retrying.  The repository's own test
`test_with_retry_temporary_error` expects the call to succeed after retries. -/
theorem claim_C8_retry_crashes :
    shouldRetryDefault (.temporary "boom") = true ∧
    withRetry 3 (fun i => if i = 1
        then .error (.temporary "boom")
        else .ok (42 : Nat)) =
      .error (.attributeError "module 'time' has no attribute 'random'") := by
  constructor <;> rfl

/-! ## Orchestrator: `PipelineOrchestrator.process_email` (orchestrator.py 146-208)

The email pipeline is two steps, both with the `required = True` default.
Step functions are `Except String` valued (`.error e` models a raised
exception whose text is `e`).  The enclosing `try/except` of `process_email`
catches the `RuntimeError` raised for a required step and RETURNS the failed
context — it never re-raises — so the embedding is a total function into the
context. -/

/-- The slice of `PipelineContext` the claims inspect (orchestrator.py lines
36-47): `results` is kept as the two step slots. -/
structure PipelineCtx (α β : Type) where
  status : String := "running"
  error : Option String := none
  result1 : Option α := none
  result2 : Option β := none
  endTimeSet : Bool := false

/-- `process_email` on a 2-step pipeline: run step 1 on the query, feed its
result to step 2, recording each result in the context as it completes; a
required step's exception becomes `RuntimeError("Required step <name> failed:
<msg>")`, caught by the outer handler which marks the context
failed and returns it.  Also returns the list of inputs step 2 was invoked
with. -/
def processTwoStep (name1 name2 : String) (step1 : ι → Except String α)
    (step2 : α → Except String β) (input : ι) :
    PipelineCtx α β × List α :=
  match step1 input with
  | .error e =>
    ({ status := "failed",
       error := some ("Required step " ++ name1 ++ " failed: " ++ e),
       endTimeSet := true }, [])
  | .ok x =>
    match step2 x with
    | .error e =>
      ({ status := "failed",
         error := some ("Required step " ++ name2 ++ " failed: " ++ e),
         result1 := some x,
         endTimeSet := true }, [x])
    | .ok y =>
      ({ status := "completed",
         result1 := some x,
         result2 := some y,
         endTimeSet := true }, [x])

/-- Claim C9.  In a 2-step run where step 1 returns `X`, step 2 is invoked
with exactly `X` (its call log is `[X]`); and if step 2 — a required step —
raises, the orchestrator returns (rather than re-raises) a context with
`status = "failed"`, `error` set from the failure message, `end_time` set, and
`results[step1] = X` still present. -/
theorem claim_C9_step2_failure (name1 name2 : String)
    (step1 : ι → Except String α) (step2 : α → Except String β)
    (input : ι) (x : α) (e : String)
    (h1 : step1 input = .ok x) (h2 : step2 x = .error e) :
    processTwoStep name1 name2 step1 step2 input =
      ({ status := "failed",
         error := some ("Required step " ++ name2 ++ " failed: " ++ e),
         result1 := some x,
         endTimeSet := true }, [x]) := by
  simp [processTwoStep, h1, h2]

/-- Witness for `claim_C9_step2_failure` at a concrete pipeline: step 1 maps
`n` to `n + 1`, step 2 always raises "db down". -/
theorem claim_C9_witness :
    processTwoStep "retrieve_email" "process_email"
        (fun n : Nat => .ok (n + 1)) (fun _ : Nat => (.error "db down" : Except String Nat)) 41 =
      ({ status := "failed",
         error := some "Required step process_email failed: db down",
         result1 := some 42,
         endTimeSet := true }, [42]) :=
  claim_C9_step2_failure "retrieve_email" "process_email"
    (fun n : Nat => .ok (n + 1)) (fun _ : Nat => (.error "db down" : Except String Nat))
    41 42 "db down" rfl rfl

/-! ## Queue persistence (queue.py lines 332-408)

`_persist_to_file` builds `{"queue": [...], "processed": [...], "stats":
self.stats, "timestamp": ...}` and calls `json.dump` on it; `self.stats`
always holds `start_time` as a `datetime` object (set in `__init__`, and
`_load_from_file` converts it back to a `datetime` after every load), which
`json.dump` cannot serialise.  Python values are modelled by `PyVal`;
`jsonSerializable` is `json.dump`'s domain (a `datetime` is not in it). -/

/-- A Python value as handed to `json.dump`. -/
inductive PyVal where
  | pstr (s : String)
  | pint (n : Int)
  | pbool (b : Bool)
  | pnone
  | pdt (epochSeconds : Nat)
  | plist (xs : List PyVal)
  | pdict (kvs : List (String × PyVal))
  deriving Repr

mutual
/-- Whether `json.dump` accepts the value: `datetime` objects raise
`TypeError`, containers are serialisable when all members are. -/
def jsonSerializable : PyVal → Bool
  | .pstr _ => true
  | .pint _ => true
  | .pbool _ => true
  | .pnone => true
  | .pdt _ => false
  | .plist xs => jsonSerializableList xs
  | .pdict kvs => jsonSerializableKVs kvs

/-- Serialisability of a list of values. -/
def jsonSerializableList : List PyVal → Bool
  | [] => true
  | x :: xs => jsonSerializable x && jsonSerializableList xs

/-- Serialisability of the values of a dict. -/
def jsonSerializableKVs : List (String × PyVal) → Bool
  | [] => true
  | (_, v) :: kvs => jsonSerializable v && jsonSerializableKVs kvs
end

/-- `datetime.isoformat`, abstracted to an injective rendering of the epoch
seconds. -/
def isoformat (t : Nat) : String :=
  "1970-01-01+" ++ toString t

/-- `Message.to_dict` (queue.py lines 32-38): `created_at` becomes its ISO
string, `scheduled_time` only when set. -/
def msgToDict (m : Message) : PyVal :=
  .pdict
    [("id", .pint m.id),
     ("priority", .pint m.priority),
     ("created_at", .pstr (isoformat m.created_at)),
     ("processed", .pbool m.processed),
     ("retry_count", .pint m.retry_count),
     ("max_retries", .pint m.max_retries),
     ("scheduled_time",
       match m.scheduled_time with
       | some t => .pstr (isoformat t)
       | none => .pnone),
     ("error",
       match m.error with
       | some e => .pstr e
       | none => .pnone)]

/-- The object `_persist_to_file` passes to `json.dump` (queue.py lines
352-357); `startTime` is the `datetime` object stored at
`self.stats["start_time"]`. -/
def persistPayload (pending processed : List Message) (s : Stats)
    (startTime now : Nat) : PyVal :=
  .pdict
    [("queue", .plist (pending.map msgToDict)),
     ("processed", .plist (processed.map msgToDict)),
     ("stats", .pdict
       [("enqueued", .pint s.enqueued),
        ("processed", .pint s.processed),
        ("retried", .pint s.retried),
        ("failed", .pint s.failed),
        ("start_time", .pdt startTime)]),
     ("timestamp", .pstr (isoformat now))]

/-- `_persist_to_file` (queue.py lines 332-372): when `json.dump` succeeds the
temp file replaces the target atomically; when it raises — as it must on the
`datetime` inside `stats` — the exception is caught, logged, and the previous
file content (`oldFile`, `none` when no file exists yet) is left untouched. -/
def persistToFile (oldFile : Option PyVal) (pending processed : List Message)
    (s : Stats) (startTime now : Nat) : Option PyVal :=
  let payload := persistPayload pending processed s startTime now
  if jsonSerializable payload then some payload else oldFile

/-- Dict lookup, as `data.get(key, default)` with default `[]`/absent. -/
def pyGet (v : PyVal) (key : String) : Option PyVal :=
  match v with
  | .pdict kvs => (kvs.find? (fun kv => kv.1 = key)).map (·.2)
  | _ => none

/-- The pending-message ids `_load_from_file` (queue.py lines 374-395) would
reconstruct from a persistence file: each entry of `data.get("queue", [])`
contributes its `"id"`.  A missing file loads nothing. -/
def loadPendingIds (file : Option PyVal) : List PyVal :=
  match file with
  | none => []
  | some data =>
    match pyGet data "queue" with
    | some (.plist entries) => entries.filterMap (fun e => pyGet e "id")
    | _ => []

/-- Claim C5 (code bug).  Take a fresh queue holding two pending messages and
default stats — so `stats["start_time"]` is a `datetime`, as it is after
every `__init__` and after every `_load_from_file`.  The persistence payload
is not JSON-serialisable, `json.dump` raises `TypeError`, `_persist_to_file`
swallows it, and no file is ever written: loading after "Save!" yields no
pending ids, so the save/load round-trip cannot reproduce the queue.  The
repository's own `test_persistence` expects the file to exist with
`len(data["queue"]) == 2`. -/
theorem claim_C5_persistence_lost :
    jsonSerializable
        (persistPayload [{ id := 1 }, { id := 2 }] [] {} 500 600) = false ∧
    persistToFile none [{ id := 1 }, { id := 2 }] [] {} 500 600 = none ∧
    loadPendingIds (persistToFile none [{ id := 1 }, { id := 2 }] [] {} 500 600) = [] := by
  refine ⟨?_, ?_, ?_⟩ <;> rfl

/-! ## Scheduler: `Schedule.update_next_run` (scheduler.py lines 61-167)

Clock values are epoch seconds with the epoch on a Monday 00:00:00, so
`weekday = day % 7` agrees with `datetime.weekday()` (Monday = 0).  The
`monthly` and `cron` branches need calendar months and the external
`croniter` library and are outside this embedding. -/

/-- `now.weekday()`. -/
def weekday (now : Nat) : Nat := now / 86400 % 7

/-- `now.hour`. -/
def dtHour (now : Nat) : Nat := now % 86400 / 3600

/-- `now.minute`. -/
def dtMinute (now : Nat) : Nat := now % 3600 / 60

/-- `now.replace(hour=h, minute=m, second=0, microsecond=0)`; out-of-range
fields raise `ValueError` (caught by `update_next_run`, yielding `None`). -/
def replaceHM (now h m : Nat) : Option Nat :=
  if h < 24 ∧ m < 60 then some (86400 * (now / 86400) + h * 3600 + m * 60)
  else none

/-- Python `str.split(sep)` on the character list of a string. -/
def splitOnChar (c : Char) : List Char → List (List Char)
  | [] => [[]]
  | x :: xs =>
    match splitOnChar c xs with
    | [] => [[x]]
    | y :: ys => if x = c then [] :: y :: ys else (x :: y) :: ys

/-- Decimal value of one digit character, if it is one. -/
def digitVal? (c : Char) : Option Nat :=
  if '0' ≤ c ∧ c ≤ '9' then some (c.toNat - '0'.toNat) else none

/-- Accumulating decimal parse of a digit list. -/
def digitsAux : List Char → Nat → Option Nat
  | [], acc => some acc
  | c :: cs, acc =>
    match digitVal? c with
    | some d => digitsAux cs (acc * 10 + d)
    | none => none

/-- Python `int(s)` restricted to plain digit strings (the forms the
schedules use); anything else models the `ValueError` path as `none`. -/
def digitsToNat? (cs : List Char) : Option Nat :=
  match cs with
  | [] => none
  | _ => digitsAux cs 0

/-- `hour, minute = map(int, time_str.split(':'))` — any parse or unpack
failure raises `ValueError`, which `update_next_run` catches. -/
def parseHM (s : String) : Option (Nat × Nat) :=
  match splitOnChar ':' s.data with
  | [hs, ms] =>
    match digitsToNat? hs, digitsToNat? ms with
    | some h, some m => some (h, m)
    | _, _ => none
  | _ => none

/-- The DAILY branch (scheduler.py lines 84-100). -/
def dailyNext (ts : String) (now : Nat) : Option Nat :=
  match parseHM ts with
  | none => none
  | some (h, m) =>
    match replaceHM now h m with
    | none => none
    | some target => some (if target ≤ now then target + 86400 else target)

/-- The WEEKLY branch (scheduler.py lines 108-123).  `days_to_add` uses
Python's nonnegative `%`; the roll-by-7 condition keeps the source's
parenthesisation `(days_to_add == 0 and now.hour > hour) or (now.hour == hour
and now.minute >= minute)`. -/
def weeklyNext (wd : Int) (ts : String) (now : Nat) : Option Nat :=
  match parseHM ts with
  | none => none
  | some (h, m) =>
    let d0 : Nat := ((wd - (weekday now : Int)) % 7).toNat
    let d : Nat :=
      if (d0 = 0 ∧ h < dtHour now) ∨ (dtHour now = h ∧ m ≤ dtMinute now)
      then 7 else d0
    match replaceHM now h m with
    | none => none
    | some base => some (base + 86400 * d)

/-- The INTERVAL branch (scheduler.py lines 73-82), after the
`not self.interval_seconds` falsiness check. -/
def intervalNext (i : Nat) (lastRun : Option Nat) (now : Nat) : Option Nat :=
  match lastRun with
  | some lr => some (lr + i)
  | none => some (now + i)

/-- Schedule types covered by the embedding. -/
inductive SchedType where
  | interval
  | daily
  | weekly
  deriving Repr, DecidableEq

/-- The slice of the `Schedule` dataclass the claims need (scheduler.py lines
27-59). -/
structure Schedule where
  type : SchedType
  enabled : Bool := true
  interval_seconds : Option Nat := none
  daily_time : Option String := none
  weekly_day : Option Int := none
  weekly_time : Option String := none
  last_run : Option Nat := none
  next_run : Option Nat := none
  deriving Repr, DecidableEq

/-- Python falsiness of an optional int: `None` and `0` are falsy — so the
guard `not self.weekly_day` also rejects the legitimate weekday 0. -/
def falsyOptInt : Option Int → Bool
  | none => true
  | some w => w == 0

/-- Python falsiness of an optional string: `None` and `""`. -/
def falsyOptStr : Option String → Bool
  | none => true
  | some t => t == ""

/-- `Schedule.update_next_run` (scheduler.py lines 65-167) restricted to the
modelled types: disabled schedules and falsy/malformed configurations get
`next_run = None`; otherwise the type's branch computes the next time. -/
def computeNextRun (s : Schedule) (now : Nat) : Option Nat :=
  if ¬ s.enabled then none
  else
    match s.type with
    | .interval =>
      match s.interval_seconds with
      | none => none
      | some i => if i = 0 then none else intervalNext i s.last_run now
    | .daily =>
      match s.daily_time with
      | none => none
      | some ts => if ts = "" then none else dailyNext ts now
    | .weekly =>
      if falsyOptInt s.weekly_day || falsyOptStr s.weekly_time then none
      else
        match s.weekly_day, s.weekly_time with
        | some wd, some ts => weeklyNext wd ts now
        | _, _ => none

/-- `update_next_run` mutates `self.next_run`. -/
def updateNextRun (s : Schedule) (now : Nat) : Schedule :=
  { s with next_run := computeNextRun s now }

/-- `PipelineScheduler.enable_schedule` (scheduler.py lines 384-404): set
`enabled = True`, then recompute. -/
def enableSchedule (s : Schedule) (now : Nat) : Schedule :=
  updateNextRun { s with enabled := true } now

/-- `PipelineScheduler.disable_schedule` (scheduler.py lines 406-426): set
`enabled = False` and `next_run = None` directly, without recomputing. -/
def disableSchedule (s : Schedule) : Schedule :=
  { s with enabled := false, next_run := none }

/-- Inversion of a successful `replace`. -/
lemma replaceHM_some {now h m t : Nat} (heq : replaceHM now h m = some t) :
    h < 24 ∧ m < 60 ∧ t = 86400 * (now / 86400) + h * 3600 + m * 60 := by
  unfold replaceHM at heq
  split at heq
  · exact ⟨by omega, by omega, by simpa using heq.symm⟩
  · exact absurd heq (by simp)

/-- A non-`None` DAILY result is strictly in the future. -/
lemma dailyNext_future (ts : String) (now t : Nat)
    (h : dailyNext ts now = some t) : now < t := by
  unfold dailyNext at h
  rcases hp : parseHM ts with _ | ⟨hh, mm⟩ <;> rw [hp] at h <;> dsimp only [] at h
  · exact absurd h (by simp)
  · rcases hrep : replaceHM now hh mm with _ | target <;> rw [hrep] at h
    · exact absurd h (by simp)
    · obtain ⟨h24, h60, htar⟩ := replaceHM_some hrep
      simp only [Option.some.injEq] at h
      split at h <;> omega

/-- A non-`None` WEEKLY result is strictly in the future (whatever weekday it
lands on). -/
lemma weeklyNext_future (wd : Int) (ts : String) (now t : Nat)
    (h : weeklyNext wd ts now = some t) : now < t := by
  unfold weeklyNext at h
  rcases hp : parseHM ts with _ | ⟨hh, mm⟩ <;> rw [hp] at h <;> dsimp only [] at h
  · exact absurd h (by simp)
  · rcases hrep : replaceHM now hh mm with _ | base <;> rw [hrep] at h
    · exact absurd h (by simp)
    · obtain ⟨h24, h60, hbase⟩ := replaceHM_some hrep
      simp only [Option.some.injEq] at h
      set d0 : Nat := ((wd - (weekday now : Int)) % 7).toNat with hd0
      have ehour : dtHour now = now % 86400 / 3600 := rfl
      have eminute : dtMinute now = now % 3600 / 60 := rfl
      split at h
      · -- rolled: 7 days ahead of the day start
        omega
      · -- not rolled
        rename_i hroll
        rcases Nat.eq_zero_or_pos d0 with hz | hpos
        · rw [hz] at h
          push_neg at hroll
          have hr1 := hroll.1 hz
          have hr2 := hroll.2
          rw [ehour] at hr1 hr2
          rw [eminute] at hr2
          by_cases hcase : now % 86400 / 3600 = hh
          · have := hr2 hcase
            omega
          · omega
        · omega

/-- Claim C6 (code bug).  An enabled weekly schedule with the legitimate
`weekly_day = 0` (Monday) and well-formed `weekly_time = "08:00"` gets
`next_run = None`: the guard `not self.weekly_day` treats the integer 0 as a
missing field.  The repository's own `test_update_next_run_weekly` builds
exactly this schedule and asserts `next_run is not None` and lands on a
Monday.  Moreover, for `weekly_day = 3` (Thursday) recomputed on a Monday at
08:00:00 (epoch second 28800), the misparenthesised roll condition
`days_to_add == 0 and now.hour > hour or (now.hour == hour and now.minute >=
minute)` fires because the minutes match, so `next_run` lands seven days
ahead on a Monday (weekday 0) instead of the coming Thursday. -/
theorem claim_C6_weekly_misconfigured :
    (updateNextRun
        { type := .weekly, weekly_day := some 0, weekly_time := some "08:00" }
        1000).next_run = none ∧
    (updateNextRun
        { type := .weekly, weekly_day := some 3, weekly_time := some "08:00" }
        28800).next_run = some 633600 ∧
    weekday 633600 = 0 := by
  refine ⟨rfl, rfl, rfl⟩

/-- Claim C7 (counterexample to the claim as stated).  Re-enabling an interval
schedule (interval 600 s) whose `last_run` is stale (epoch second 100) at
`now = 10000` recomputes `next_run = last_run + interval = 700`, which is in
the past — not strictly later than the recomputation instant, and not a
"future" `next_run` as the claim promises for re-enabling. -/
theorem claim_C7_counterexample :
    (enableSchedule
        { type := .interval, enabled := false, interval_seconds := some 600,
          last_run := some 100 }
        10000).next_run = some 700 ∧ 700 < 10000 := by
  exact ⟨rfl, by decide⟩

/-- Claim C7 (amended).  After a recomputation at `now`: a disabled schedule
has `next_run = None` (and `disable_schedule` clears it directly); a daily or
weekly schedule's non-`None` `next_run` is strictly after `now`; an interval
schedule that has never run gets `now + interval`, strictly future — but an
interval schedule with a recorded `last_run` gets `last_run + interval`,
which may lie in the past, so the spec's invariant holds only outside that
case. -/
theorem claim_C7_next_run_invariant (s : Schedule) (now : Nat) :
    (s.enabled = false → (updateNextRun s now).next_run = none) ∧
    ((disableSchedule s).next_run = none ∧ (disableSchedule s).enabled = false) ∧
    (s.type = .daily → ∀ t, (updateNextRun s now).next_run = some t → now < t) ∧
    (s.type = .weekly → ∀ t, (updateNextRun s now).next_run = some t → now < t) ∧
    (s.type = .interval → s.last_run = none →
      ∀ t, (updateNextRun s now).next_run = some t → now < t) ∧
    (∀ lr i, s.type = .interval → s.enabled = true → s.last_run = some lr →
      s.interval_seconds = some i → i ≠ 0 →
      (updateNextRun s now).next_run = some (lr + i)) := by
  refine ⟨?_, ⟨rfl, rfl⟩, ?_, ?_, ?_, ?_⟩
  · intro he
    simp [updateNextRun, computeNextRun, he]
  · intro htype t h
    simp only [updateNextRun] at h
    unfold computeNextRun at h
    rw [htype] at h
    by_cases he : s.enabled
    · simp only [he, not_true_eq_false, if_false] at h
      rcases hd : s.daily_time with _ | ts <;> rw [hd] at h <;> dsimp only [] at h
      · exact absurd h (by simp)
      · split at h
        · exact absurd h (by simp)
        · exact dailyNext_future ts now t h
    · simp [he] at h
  · intro htype t h
    simp only [updateNextRun] at h
    unfold computeNextRun at h
    rw [htype] at h
    by_cases he : s.enabled
    · simp only [he, not_true_eq_false, if_false] at h
      split at h
      · exact absurd h (by simp)
      · rcases hw : s.weekly_day with _ | wd <;> rw [hw] at h
        · exact absurd h (by simp)
        · rcases ht : s.weekly_time with _ | ts <;> rw [ht] at h
          · exact absurd h (by simp)
          · exact weeklyNext_future wd ts now t h
    · simp [he] at h
  · intro htype hlr t h
    simp only [updateNextRun] at h
    unfold computeNextRun at h
    rw [htype] at h
    by_cases he : s.enabled
    · simp only [he, not_true_eq_false, if_false] at h
      rcases hi : s.interval_seconds with _ | i <;> rw [hi] at h <;> dsimp only [] at h
      · exact absurd h (by simp)
      · split at h
        · exact absurd h (by simp)
        · rw [hlr] at h
          simp only [intervalNext, Option.some.injEq] at h
          rename_i hiz
          omega
    · simp [he] at h
  · intro lr i htype he hlr hi hiz
    simp [updateNextRun, computeNextRun, htype, he, hlr, hi, hiz, intervalNext]

/-- Witness for `claim_C7_next_run_invariant`: a daily 08:00 schedule
recomputed at epoch second 1000 gets `next_run = 28800 > 1000`, and an
enabled interval schedule with `last_run = 50` and interval 600 gets
`next_run = some 650`. -/
theorem claim_C7_witness :
    (1000 : Nat) < 28800 ∧
    (updateNextRun
        { type := .interval, interval_seconds := some 600, last_run := some 50 }
        1000).next_run = some 650 := by
  constructor
  · exact (claim_C7_next_run_invariant
      { type := .daily, daily_time := some "08:00" } 1000).2.2.1 rfl 28800 rfl
  · exact (claim_C7_next_run_invariant
      { type := .interval, interval_seconds := some 600, last_run := some 50 }
      1000).2.2.2.2.2 50 600 rfl rfl rfl rfl (by decide)

end ICAP
